import Mathlib

/-!
Verification development for the ssh-control-panel repository's
remote session & fan-out execution orchestrator.

Shallow embedding of:
- the destructive-command screening (`validateScript` in
  `src/app/dashboard/scripts/page.tsx`, plus the Command Preprocessor's
  `prepare`, modelled from the spec since `command-middleware.ts` is not in
  the snapshot);
- the fan-out script runner and its cancellation handler
  (`script:run` / `script:cancel` in the websocket server, part_001);
- the terminal session handlers (`terminal:input` / `terminal:resize` /
  `terminal:command` / `terminal:disconnect`, part_001);
- the PTY session registry (`src/lib/ssh-pty.ts`:
  `createPTYShellSession`, `closePTYShellSession`, `resizePTYSession`,
  `getPTYSessionInfo`, `hasPTYSession`).

JS `Map`s are modelled as association lists with first-match lookup;
JS exceptions thrown by the ssh2 library inside `try`/`catch` blocks are
modelled by explicit outcome parameters so the `catch` branches of the
source are represented.
-/

namespace Panel

/-- First-match lookup in an association list (models `Map.get`). -/
def lookupA {α : Type} : List (String × α) → String → Option α
  | [], _ => none
  | (k, v) :: t, key => if k == key then some v else lookupA t key

/-- Remove every entry with the given key (models `Map.delete`). -/
def eraseA {α : Type} : List (String × α) → String → List (String × α)
  | [], _ => []
  | p :: t, key => if p.1 == key then eraseA t key else p :: eraseA t key

/-- Replace the value stored at the given key, keeping order
(models in-place mutation of the object stored in the `Map`). -/
def updateA {α : Type} : List (String × α) → String → α → List (String × α)
  | [], _, _ => []
  | p :: t, key, v =>
      if p.1 == key then (p.1, v) :: updateA t key v else p :: updateA t key v

/-! ## Command screening (`validateScript`, scripts/page.tsx 291-351) -/

/-- Does `hay` start with `needle`? (character lists) -/
def startsWithL : List Char → List Char → Bool
  | _, [] => true
  | [], _ :: _ => false
  | a :: as, b :: bs => a == b && startsWithL as bs

/-- JS `String.prototype.includes`: does `hay` contain `needle` as a
contiguous subsequence? -/
def containsSeq : List Char → List Char → Bool
  | [], needle => needle.isEmpty
  | a :: t, needle => startsWithL (a :: t) needle || containsSeq t needle

/-- JS `toLowerCase` (ASCII-faithful, which covers the deny-list patterns). -/
def toLowerL (l : List Char) : List Char := l.map Char.toLower

/-- The deny-list of destructive command substrings, verbatim from
`validateScript` (scripts/page.tsx lines 329-338). -/
def dangerousCommands : List String :=
  ["rm -rf /", "rm -rf *", "mkfs", "dd if=/dev/zero", "format", "fdisk",
   "parted", ":()\x7b :|:& \x7d;:"]

/-- `dangerousCommands.some(d => lowerCommand.includes(d))`. -/
def matchesDenyList (command : String) : Bool :=
  dangerousCommands.any (fun d => containsSeq (toLowerL command.data) d.data)

/-- The inputs `validateScript` reads (component state). -/
structure ScriptForm where
  scriptName : String
  command : String
  selectedServersCount : Nat
  connected : Bool

/-- `validateScript` (scripts/page.tsx lines 291-351): sequential checks,
ending with the deny-list screen. -/
def validateScript (f : ScriptForm) : Bool :=
  if f.scriptName.trim.isEmpty then false
  else if f.command.trim.isEmpty then false
  else if f.selectedServersCount == 0 then false
  else if !f.connected then false
  else if matchesDenyList f.command then false
  else true

/-- `runScript` emits `script:run` only when `validateScript()` passed, a
socket exists, and the user confirmed the dialog. -/
def scriptRunEmitted (f : ScriptForm) (hasSocket confirmed : Bool) : Bool :=
  validateScript f && hasSocket && confirmed

/-- Number of `executeCommandStreaming` calls (Remote Connection Provider
invocations) the command causes: the websocket server runs one per target
server of a received `script:run`, and none when `script:run` is never
emitted. -/
def providerInvocations (f : ScriptForm) (hasSocket confirmed : Bool) : Nat :=
  if scriptRunEmitted f hasSocket confirmed then f.selectedServersCount else 0

/-- Result of the Command Preprocessor's `prepare`. -/
inductive PrepareResult
  | safe (command : String)
  | rejected (reason : String)
deriving DecidableEq

/-- Modelled from the spec: `command-middleware.ts` (the
`preprocessCommand` imported by the websocket servers) is not present in
the repository snapshot, only its callers are. Per spec section 4.2 the
Command Preprocessor's `prepare(rawCommand)` screens the command against
the deny-list of destructive patterns and a match yields `Rejected` with a
human-readable reason; a non-matching command passes through (the alias
table and safety prefixes are irrelevant to the claims and modelled as the
identity). The deny-list is taken from the repository's own screening code
(`dangerousCommands` above). -/
def prepare (raw : String) : PrepareResult :=
  if matchesDenyList raw then
    PrepareResult.rejected
      "Dangerous command detected: this command contains potentially dangerous operations and cannot be executed."
  else PrepareResult.safe raw

/-! ## Fan-out script runner (`script:run` / `script:cancel`, part_001 404-622)

The per-host work of one batch: the handler loops over the authorized
servers; each iteration first re-reads the execution record and breaks if
it was deleted or its `isRunning` flag was cleared by `script:cancel`;
otherwise it emits a `running` progress event, drives
`executeCommandStreaming` (whose observable behaviour is the list of
stdout/stderr chunks followed by either an exit code or a thrown error),
updates the success/failure counters and emits a terminal progress event.
Cancellation granularity is the loop-head check, so a batch run is
parametrised by how many iterations observe `isRunning = true`
(`cancelAt = none` means the batch is never cancelled). -/

inductive StreamKind
  | stdout
  | stderr
deriving DecidableEq

/-- What `executeCommandStreaming` does for one host: the streamed chunks
followed by a terminal exit code, or the chunks streamed before the call
throws (connection error, timeout, ...). -/
inductive HostOutcome
  | exits (chunks : List (StreamKind × String)) (code : Int)
  | errors (chunks : List (StreamKind × String)) (msg : String)
deriving DecidableEq

inductive RunStatus
  | success
  | failed
deriving DecidableEq

/-- One target host of a batch: its server id and what its remote
execution does. -/
structure HostSpec where
  serverId : Nat
  outcome : HostOutcome
deriving DecidableEq

/-- Events the `script:run` / `script:cancel` handlers emit to the client. -/
inductive SEvent
  | started (serverCount : Nat)
  | running (serverId : Nat)
  | chunk (serverId : Nat) (kind : StreamKind) (data : String)
  | done (serverId : Nat) (status : RunStatus) (exitCode : Option Int) (errMsg : Option String)
  | completed (totalServers successCount failedCount : Nat)
  | cancelledEvent
deriving DecidableEq

/-- The events one loop iteration emits for its host (part_001 502-576):
`running` progress, the streamed chunks, then exactly one terminal
progress event whose status is decided by that host's own exit code or
error. -/
def hostEvents (h : HostSpec) : List SEvent :=
  SEvent.running h.serverId ::
    (match h.outcome with
     | HostOutcome.exits chunks code =>
         chunks.map (fun c => SEvent.chunk h.serverId c.1 c.2) ++
           [SEvent.done h.serverId (if code == 0 then RunStatus.success else RunStatus.failed)
             (some code) none]
     | HostOutcome.errors chunks msg =>
         chunks.map (fun c => SEvent.chunk h.serverId c.1 c.2) ++
           [SEvent.done h.serverId RunStatus.failed none (some msg)])

/-- The terminal progress event of one host, a function of that host's own
outcome only. -/
def doneEvent (h : HostSpec) : SEvent :=
  match h.outcome with
  | HostOutcome.exits _ code =>
      SEvent.done h.serverId (if code == 0 then RunStatus.success else RunStatus.failed)
        (some code) none
  | HostOutcome.errors _ msg => SEvent.done h.serverId RunStatus.failed none (some msg)

/-- Counter increments of one iteration: `(successCount, failedCount)`. -/
def hostCounts (h : HostSpec) : Nat × Nat :=
  match h.outcome with
  | HostOutcome.exits _ code => if code == 0 then (1, 0) else (0, 1)
  | HostOutcome.errors _ _ => (0, 1)

/-- Did the host's execution finish with exit code 0? -/
def exitedZero (h : HostSpec) : Bool :=
  match h.outcome with
  | HostOutcome.exits _ code => code == 0
  | HostOutcome.errors _ _ => false

/-- Events of a list of hosts, in loop order. -/
def allHostEvents : List HostSpec → List SEvent
  | [] => []
  | h :: t => hostEvents h ++ allHostEvents t

/-- Final `successCount` of an uncancelled loop over these hosts. -/
def successTotal : List HostSpec → Nat
  | [] => 0
  | h :: t => (hostCounts h).1 + successTotal t

/-- Final `failedCount` of an uncancelled loop over these hosts. -/
def failTotal : List HostSpec → Nat
  | [] => 0
  | h :: t => (hostCounts h).2 + failTotal t

/-- Does the loop-head check observe the cancellation now? -/
def cancelledNow : Option Nat → Bool
  | none => false
  | some n => n == 0

/-- One fewer iteration until the cancellation is observed. -/
def stepCancel : Option Nat → Option Nat
  | none => none
  | some n => some (n - 1)

structure LoopResult where
  succ : Nat
  fail : Nat
  events : List SEvent
deriving DecidableEq

/-- The `for (const server of servers)` loop of `script:run`
(part_001 494-577). -/
def runLoop : List HostSpec → Option Nat → LoopResult
  | [], _ => ⟨0, 0, []⟩
  | h :: t, c =>
    if cancelledNow c then ⟨0, 0, []⟩
    else
      let r := runLoop t (stepCancel c)
      ⟨(hostCounts h).1 + r.succ, (hostCounts h).2 + r.fail, hostEvents h ++ r.events⟩

/-- A batch execution record (`scriptExecutions` entry, part_001 113-124;
fields irrelevant to the claims omitted). -/
structure ExecEntry where
  userId : Nat
  isRunning : Bool
deriving DecidableEq

/-- The full `script:run` handler after validation (part_001 480-591):
emits `script:started`, runs the loop, deletes the execution record, and
emits exactly one `script:completed` carrying the counters. -/
structure RunOutput where
  events : List SEvent
  finalEntry : Option ExecEntry
deriving DecidableEq

def scriptRun (servers : List HostSpec) (cancelAt : Option Nat) : RunOutput :=
  let r := runLoop servers cancelAt
  { events := SEvent.started servers.length ::
      (r.events ++ [SEvent.completed servers.length r.succ r.fail]),
    finalEntry := none }

/-- State the `script:cancel` handler acts on: the batch's registry entry,
the emitted event history, and whether the abort controller was
signalled. -/
structure CancelState where
  entry : Option ExecEntry
  events : List SEvent
  abortSignalled : Bool
deriving DecidableEq

/-- The `script:cancel` handler (part_001 604-622): when the execution
record exists and belongs to the caller, it clears `isRunning`, signals
the abort controller, deletes the record and emits `script:cancelled`;
otherwise it does nothing. -/
def scriptCancel (uid : Nat) (st : CancelState) : CancelState :=
  match st.entry with
  | none => st
  | some e =>
      if e.userId == uid then
        { entry := none, events := st.events ++ [SEvent.cancelledEvent], abortSignalled := true }
      else st

/-- The observable state after a batch completed naturally: the `script:run`
handler has deleted the execution record and emitted its events; no abort
was signalled. -/
def afterRun (servers : List HostSpec) : CancelState :=
  { entry := none, events := (scriptRun servers none).events, abortSignalled := false }

/-- Concrete two-host batch, both hosts exiting 0, used as the
cancellation counterexample. -/
def demoServers : List HostSpec :=
  [⟨1, HostOutcome.exits [] 0⟩, ⟨2, HostOutcome.exits [] 0⟩]

/-- Is this a terminal (`isComplete: true`) progress event? -/
def isDoneEv : SEvent → Bool
  | SEvent.done _ _ _ _ => true
  | _ => false

/-- Is this a terminal progress event for the given server? -/
def isDoneFor (sid : Nat) : SEvent → Bool
  | SEvent.done s _ _ _ => s == sid
  | _ => false

/-- Is this any per-host progress event (running or terminal) for the
given server? -/
def isProgressFor (sid : Nat) : SEvent → Bool
  | SEvent.done s _ _ _ => s == sid
  | SEvent.running s => s == sid
  | _ => false

/-- Is this the aggregate `script:completed` event? -/
def isCompletedEv : SEvent → Bool
  | SEvent.completed _ _ _ => true
  | _ => false

/-! ## PTY session registry (`src/lib/ssh-pty.ts`) -/

/-- A stored PTY session (`PTYSession` interface, ssh-pty.ts 10-20); the
ssh2 `client` and `stream` objects are opaque handles. -/
structure PTYSession where
  client : Nat
  stream : Nat
  serverId : Nat
  userId : Nat
  cwd : String
  cols : Nat
  rows : Nat
deriving DecidableEq

/-- The `ptyShellSessions` map. -/
abbrev PTYReg : Type := List (String × PTYSession)

/-- `hasPTYSession` (ssh-pty.ts 253-255). -/
def hasPTYSession (reg : PTYReg) (sessionId : String) : Bool :=
  (lookupA reg sessionId).isSome

/-- `getPTYSessionInfo` (ssh-pty.ts 235-248). -/
def getPTYSessionInfo (reg : PTYReg) (sessionId : String) :
    Option (String × Nat × Nat) :=
  match lookupA reg sessionId with
  | none => none
  | some s => some (s.cwd, s.cols, s.rows)

/-- What the `try { stream.end(); client.end(); }` block of
`closePTYShellSession` does: both calls return, or one of them throws (the
`catch` swallows the exception either way). -/
inductive PTYCloseOutcome
  | ok
  | streamEndThrows
  | clientEndThrows
deriving DecidableEq

structure CloseResult where
  registry : PTYReg
  streamEnded : Bool
  clientEnded : Bool
  errorRaised : Bool
deriving DecidableEq

/-- `closePTYShellSession` (ssh-pty.ts 214-230): missing session is an
early return; otherwise `stream.end()` and `client.end()` run inside
`try`/`catch` (an exception skips the remaining call and is caught and
logged, never re-raised) and the registry entry is deleted afterwards in
every case. -/
def closePTYShellSession (reg : PTYReg) (sessionId : String)
    (oc : PTYCloseOutcome) : CloseResult :=
  match lookupA reg sessionId with
  | none => ⟨reg, false, false, false⟩
  | some _ =>
      match oc with
      | PTYCloseOutcome.ok => ⟨eraseA reg sessionId, true, true, false⟩
      | PTYCloseOutcome.streamEndThrows => ⟨eraseA reg sessionId, false, false, false⟩
      | PTYCloseOutcome.clientEndThrows => ⟨eraseA reg sessionId, true, false, false⟩

/-- `resizePTYSession` (ssh-pty.ts 192-209): missing session returns
`false`; otherwise `stream.setWindow(rows, cols, 0, 0)` runs first — if it
throws, the `catch` returns `false` with `cols`/`rows` not yet assigned —
and on success the stored `cols` and `rows` are updated and `true` is
returned. -/
def resizePTYSession (reg : PTYReg) (sessionId : String) (cols rows : Nat)
    (setWindowThrows : Bool) : PTYReg × Bool :=
  match lookupA reg sessionId with
  | none => (reg, false)
  | some s =>
      if setWindowThrows then (reg, false)
      else (updateA reg sessionId { s with cols := cols, rows := rows }, true)

/-- A `server` row of the record store, as read by
`createPTYShellSession`. -/
structure ServerRec where
  id : Nat
  userId : Nat
  host : String
  port : Nat
deriving DecidableEq

/-- What the ssh2 connection attempt does once started: the client becomes
ready and the shell request succeeds or fails, the client errors out, or
the 15 s timeout fires. -/
inductive ConnectOutcome
  | ready (shellErr : Option String)
  | connError (msg : String)
  | timeoutFired
deriving DecidableEq

/-- Ordered actions of one `createPTYShellSession` call. -/
inductive PTYAction
  | authCheck
  | connectCall
deriving DecidableEq

def isConnectCall : PTYAction → Bool
  | PTYAction.connectCall => true
  | PTYAction.authCheck => false

structure CreateResult where
  success : Bool
  error : Option String
  cwd : Option String
deriving DecidableEq

/-- Did the ownership check of `createPTYShellSession` fail? (ssh-pty.ts
39-41: the server row is missing or is not owned by the caller.) -/
def authFail (srv : Option ServerRec) (userId : Nat) : Bool :=
  match srv with
  | none => true
  | some server => !(server.userId == userId)

/-- `createPTYShellSession` (ssh-pty.ts 27-147): looks up the server row,
returns "Server not found or access denied" when the row is missing or
owned by another user — before any `Client` is created — and only
otherwise calls `client.connect(...)`, resolving per the connection
outcome. The returned action list records the order of the ownership
check and the connect call. -/
def createPTYShellSession (srv : Option ServerRec) (userId : Nat)
    (conn : ConnectOutcome) : CreateResult × List PTYAction :=
  match srv with
  | none =>
      (⟨false, some "Server not found or access denied", none⟩, [PTYAction.authCheck])
  | some server =>
      if server.userId == userId then
        match conn with
        | ConnectOutcome.ready none =>
            (⟨true, none, some "~"⟩, [PTYAction.authCheck, PTYAction.connectCall])
        | ConnectOutcome.ready (some msg) =>
            (⟨false, some msg, none⟩, [PTYAction.authCheck, PTYAction.connectCall])
        | ConnectOutcome.connError msg =>
            (⟨false, some msg, none⟩, [PTYAction.authCheck, PTYAction.connectCall])
        | ConnectOutcome.timeoutFired =>
            (⟨false, some "Connection timeout", none⟩, [PTYAction.authCheck, PTYAction.connectCall])
      else
        (⟨false, some "Server not found or access denied", none⟩, [PTYAction.authCheck])

/-- Concrete one-session PTY registry used by counterexamples and
witnesses. -/
def demoPTYReg : PTYReg := [("s1", ⟨1, 1, 5, 7, "~", 120, 30⟩)]

/-! ## Terminal session handlers (part_001 99-399) -/

inductive SessionType
  | pty
  | legacy
deriving DecidableEq

/-- A `terminalSessions` entry (part_001 99-106). -/
structure TermSession where
  userId : Nat
  serverId : Nat
  sessionType : SessionType
  shellSessionId : String
  isActive : Bool
  lastActivity : Nat
deriving DecidableEq

abbrev TermReg : Type := List (String × TermSession)

/-- Externally visible effects of one terminal handler call: events
emitted back to the client, and calls into the remote side. -/
inductive TermEffect
  | errorEvent (msg : String)
  | ptyWrite (sessionId : String) (data : String)
  | ptyResize (sessionId : String) (cols rows : Nat)
  | legacyExec (shellSessionId : String) (command : String)
  | outputEvent (sessionId : String) (exitCode : Int)
  | closedPTY (sessionId : String)
  | closedShell (shellSessionId : String)
deriving DecidableEq

/-- `terminal:input` (part_001 266-288): unknown or inactive session emits
"Invalid terminal session" and touches nothing remote; otherwise
`lastActivity` is refreshed and `writeToPTYSession` is called, which
writes to the stream when the PTY session exists and otherwise makes the
handler emit "Failed to write to terminal". -/
def terminalInput (reg : TermReg) (ptyReg : PTYReg) (sessionId data : String)
    (now : Nat) : TermReg × List TermEffect :=
  match lookupA reg sessionId with
  | none => (reg, [TermEffect.errorEvent "Invalid terminal session"])
  | some s =>
      if s.isActive then
        let regA := updateA reg sessionId { s with lastActivity := now }
        if hasPTYSession ptyReg sessionId then
          (regA, [TermEffect.ptyWrite sessionId data])
        else (regA, [TermEffect.errorEvent "Failed to write to terminal"])
      else (reg, [TermEffect.errorEvent "Invalid terminal session"])

/-- `terminal:resize` (part_001 293-306): unknown or inactive session is a
bare `return` — no event is emitted and nothing remote is touched;
otherwise `resizePTYSession` is called (its result is ignored). -/
def terminalResize (reg : TermReg) (sessionId : String) (cols rows : Nat) :
    TermReg × List TermEffect :=
  match lookupA reg sessionId with
  | none => (reg, [])
  | some s =>
      if s.isActive then (reg, [TermEffect.ptyResize sessionId cols rows])
      else (reg, [])

/-- `terminal:command` (part_001 339-399): unknown or inactive session
emits "Invalid terminal session"; a PTY session gets the command plus a
carriage return written to its stream; a legacy session answers an empty
command with an exit-0 output event and otherwise preprocesses and
streams the command (the preprocess-and-stream step is a single remote
effect here — no claim depends on its internals). -/
def terminalCommand (reg : TermReg) (sessionId command : String) (now : Nat) :
    TermReg × List TermEffect :=
  match lookupA reg sessionId with
  | none => (reg, [TermEffect.errorEvent "Invalid terminal session"])
  | some s =>
      if s.isActive then
        let regA := updateA reg sessionId { s with lastActivity := now }
        match s.sessionType with
        | SessionType.pty => (regA, [TermEffect.ptyWrite sessionId (command ++ "\r")])
        | SessionType.legacy =>
            if command.trim.isEmpty then (regA, [TermEffect.outputEvent sessionId 0])
            else (regA, [TermEffect.legacyExec s.shellSessionId command])
      else (reg, [TermEffect.errorEvent "Invalid terminal session"])

/-- `terminal:disconnect` (part_001 311-334): when the session exists it is
deactivated, its PTY or legacy shell is closed and the entry is deleted;
an unknown id leaves the registry untouched. -/
def terminalDisconnect (reg : TermReg) (sessionId : String) :
    TermReg × List TermEffect :=
  match lookupA reg sessionId with
  | none => (reg, [])
  | some s =>
      (eraseA reg sessionId,
        [match s.sessionType with
         | SessionType.pty => TermEffect.closedPTY sessionId
         | SessionType.legacy => TermEffect.closedShell s.shellSessionId])

/-- Concrete one-session terminal registry (active PTY session). -/
def demoTermReg : TermReg :=
  [("s1", ⟨1, 1, SessionType.pty, "s1", true, 0⟩)]

/-- Concrete registry holding an inactive session. -/
def demoInactiveTermReg : TermReg :=
  [("s2", ⟨1, 1, SessionType.pty, "s2", false, 0⟩)]

/-! ## Registry lemmas -/

theorem lookupA_eraseA_self {α : Type} (reg : List (String × α)) (key : String) :
    lookupA (eraseA reg key) key = none := by
  induction reg with
  | nil => rfl
  | cons p t ih =>
    by_cases h : p.1 == key
    · simpa [eraseA, h] using ih
    · simpa [eraseA, lookupA, h] using ih

theorem lookupA_updateA_self {α : Type} (reg : List (String × α)) (key : String) (v : α) :
    lookupA (updateA reg key v) key
      = if (lookupA reg key).isSome then some v else none := by
  induction reg with
  | nil => rfl
  | cons p t ih =>
    by_cases h : p.1 == key
    · simp [updateA, lookupA, h]
    · simp [updateA, lookupA, h, ih]

/-! ## Script-loop lemmas -/

theorem runLoop_none (servers : List HostSpec) :
    runLoop servers none
      = ⟨successTotal servers, failTotal servers, allHostEvents servers⟩ := by
  induction servers with
  | nil => rfl
  | cons h t ih =>
    simp [runLoop, cancelledNow, stepCancel, ih, successTotal, failTotal, allHostEvents]

theorem runLoop_some (servers : List HostSpec) (k : Nat) :
    runLoop servers (some k) = runLoop (servers.take k) none := by
  induction servers generalizing k with
  | nil => simp [runLoop]
  | cons h t ih =>
    cases k with
    | zero => simp [runLoop, cancelledNow]
    | succ n => simp [runLoop, cancelledNow, stepCancel, ih n]

theorem allHostEvents_append (a b : List HostSpec) :
    allHostEvents (a ++ b) = allHostEvents a ++ allHostEvents b := by
  induction a with
  | nil => rfl
  | cons h t ih => simp [allHostEvents, ih]

theorem filter_chunkEvents {p : SEvent → Bool}
    (hp : ∀ sid k d, p (SEvent.chunk sid k d) = false)
    (sid : Nat) (chunks : List (StreamKind × String)) :
    (chunks.map (fun c => SEvent.chunk sid c.1 c.2)).filter p = [] := by
  induction chunks with
  | nil => rfl
  | cons c t ih => simp [List.filter_cons, hp, ih]

theorem hostEvents_filter_isDoneEv (h : HostSpec) :
    (hostEvents h).filter isDoneEv = [doneEvent h] := by
  cases h with
  | mk sid oc =>
    cases oc <;>
      simp [hostEvents, doneEvent, isDoneEv, List.filter_cons, List.filter_append,
        filter_chunkEvents (p := isDoneEv) (fun _ _ _ => rfl)]

theorem allHostEvents_filter_isDoneEv (servers : List HostSpec) :
    (allHostEvents servers).filter isDoneEv = servers.map doneEvent := by
  induction servers with
  | nil => rfl
  | cons h t ih =>
    simp [allHostEvents, List.filter_append, hostEvents_filter_isDoneEv, ih]

theorem hostEvents_filter_isCompletedEv (h : HostSpec) :
    (hostEvents h).filter isCompletedEv = [] := by
  cases h with
  | mk sid oc =>
    cases oc <;>
      simp [hostEvents, isCompletedEv, List.filter_cons, List.filter_append,
        filter_chunkEvents (p := isCompletedEv) (fun _ _ _ => rfl)]

theorem allHostEvents_filter_isCompletedEv (servers : List HostSpec) :
    (allHostEvents servers).filter isCompletedEv = [] := by
  induction servers with
  | nil => rfl
  | cons h t ih =>
    simp [allHostEvents, List.filter_append, hostEvents_filter_isCompletedEv, ih]

theorem hostCounts_sum (h : HostSpec) : (hostCounts h).1 + (hostCounts h).2 = 1 := by
  cases h with
  | mk sid oc =>
    cases oc with
    | exits chunks code => by_cases hc : code == 0 <;> simp [hostCounts, hc]
    | errors chunks msg => rfl

theorem hostCounts_fst (h : HostSpec) :
    (hostCounts h).1 = if exitedZero h then 1 else 0 := by
  cases h with
  | mk sid oc =>
    cases oc with
    | exits chunks code => by_cases hc : code == 0 <;> simp [hostCounts, exitedZero, hc]
    | errors chunks msg => rfl

theorem successTotal_add_failTotal (servers : List HostSpec) :
    successTotal servers + failTotal servers = servers.length := by
  induction servers with
  | nil => rfl
  | cons h t ih =>
    have hs := hostCounts_sum h
    simp only [successTotal, failTotal, List.length_cons]
    omega

theorem successTotal_eq_countP (servers : List HostSpec) :
    successTotal servers = servers.countP exitedZero := by
  induction servers with
  | nil => rfl
  | cons h t ih =>
    have hf := hostCounts_fst h
    simp only [successTotal, List.countP_cons, ih]
    by_cases hz : exitedZero h <;> simp [hz] at hf ⊢ <;> omega

theorem failTotal_eq (servers : List HostSpec) :
    failTotal servers = servers.length - successTotal servers := by
  have := successTotal_add_failTotal servers
  omega

/-! ## Close / disconnect lemmas -/

theorem lookupA_terminalDisconnect (reg : TermReg) (sid : String) :
    lookupA (terminalDisconnect reg sid).1 sid = none := by
  unfold terminalDisconnect
  cases h : lookupA reg sid with
  | none => simpa using h
  | some s => simp [lookupA_eraseA_self]

theorem closePTY_not_found (reg : PTYReg) (sid : String) (oc : PTYCloseOutcome)
    (h : lookupA reg sid = none) :
    closePTYShellSession reg sid oc = ⟨reg, false, false, false⟩ := by
  unfold closePTYShellSession
  rw [h]

theorem closePTY_found (reg : PTYReg) (sid : String) (oc : PTYCloseOutcome)
    (s : PTYSession) (h : lookupA reg sid = some s) :
    (closePTYShellSession reg sid oc).registry = eraseA reg sid := by
  unfold closePTYShellSession
  rw [h]
  cases oc <;> rfl

theorem closePTY_registry_lookup (reg : PTYReg) (sid : String) (oc : PTYCloseOutcome) :
    lookupA (closePTYShellSession reg sid oc).registry sid = none := by
  cases h : lookupA reg sid with
  | none => rw [closePTY_not_found reg sid oc h]; exact h
  | some s => rw [closePTY_found reg sid oc s h]; exact lookupA_eraseA_self reg sid

theorem validateScript_denylist (f : ScriptForm) (h : matchesDenyList f.command = true) :
    validateScript f = false := by
  unfold validateScript
  rw [h]
  simp [ite_self]

/-! ## Claim theorems -/

/-- Claim C1: every raw command matching the destructive-command deny-list
(recursive root deletion, raw block-device writes, filesystem formatting,
fork bombs) is rejected by the Command Preprocessor's `prepare` with a
non-empty human-readable reason, fails `validateScript`, and therefore
never causes a `script:run` emission — the Remote Connection Provider is
invoked zero times for that command, so it produces no remote side
effect. -/
theorem C1_denylist_rejected_no_remote (raw : String)
    (h : matchesDenyList raw = true) (name : String) (nServers : Nat)
    (connected hasSocket confirmed : Bool) :
    (∃ reason, prepare raw = PrepareResult.rejected reason ∧ reason ≠ "") ∧
    validateScript ⟨name, raw, nServers, connected⟩ = false ∧
    providerInvocations ⟨name, raw, nServers, connected⟩ hasSocket confirmed = 0 := by
  have hv : validateScript ⟨name, raw, nServers, connected⟩ = false :=
    validateScript_denylist ⟨name, raw, nServers, connected⟩ h
  have hp : prepare raw = PrepareResult.rejected
      "Dangerous command detected: this command contains potentially dangerous operations and cannot be executed." := by
    unfold prepare
    rw [h]
    simp
  exact ⟨⟨_, hp, by decide⟩, hv, by simp [providerInvocations, scriptRunEmitted, hv]⟩

/-- Witness for C1 at the concrete recursive-delete-root command. -/
theorem C1_denylist_rejected_no_remote_witness :
    matchesDenyList "rm -rf /" = true ∧
    ((∃ reason, prepare "rm -rf /" = PrepareResult.rejected reason ∧ reason ≠ "") ∧
      validateScript ⟨"deploy", "rm -rf /", 2, true⟩ = false ∧
      providerInvocations ⟨"deploy", "rm -rf /", 2, true⟩ true true = 0) :=
  ⟨by decide,
    C1_denylist_rejected_no_remote "rm -rf /" (by decide) "deploy" 2 true true true⟩

/-- Claim C2: in a batch run that is never cancelled, every host —
whatever the other hosts do, and in particular when one host's execution
throws a connection/execution error — still receives exactly one terminal
progress event, and that event is determined solely by the host's own exit
code or error: the terminal events of the run are exactly the per-host
`doneEvent`s, in order, with the erroring host marked failed and every
sibling unaffected. -/
theorem C2_sibling_isolation (pre post : List HostSpec) (sid : Nat)
    (chunks : List (StreamKind × String)) (msg : String) :
    ((scriptRun (pre ++ ⟨sid, HostOutcome.errors chunks msg⟩ :: post) none).events.filter
        isDoneEv)
      = pre.map doneEvent
        ++ SEvent.done sid RunStatus.failed none (some msg) :: post.map doneEvent := by
  simp [scriptRun, runLoop_none, List.filter_cons, isDoneEv, List.filter_append,
    allHostEvents_filter_isDoneEv, doneEvent]

/-- Claim C3: when every host of the batch reaches a terminal state (the
uncancelled run), exactly one aggregate `script:completed` event is
emitted; its `successCount` is the number of hosts whose execution
finished with exit code 0, its `failedCount` is the number of all other
hosts, and the two add up to the batch size. -/
theorem C3_aggregate_completion (servers : List HostSpec) :
    ((scriptRun servers none).events.filter isCompletedEv)
      = [SEvent.completed servers.length (servers.countP exitedZero)
          (servers.length - servers.countP exitedZero)] ∧
    servers.countP exitedZero + (servers.length - servers.countP exitedZero)
      = servers.length := by
  constructor
  · simp [scriptRun, runLoop_none, List.filter_cons, isCompletedEv, List.filter_append,
      allHostEvents_filter_isCompletedEv, successTotal_eq_countP, failTotal_eq]
  · have hle := List.countP_le_length exitedZero (l := servers)
    omega

/-- Counterexample to claim C4 as stated: in a two-host batch cancelled
after the first host finished, host 2 was started as part of the batch
(`script:started` counted it) yet is never transitioned to `failed` and
never receives any progress event — the loop simply breaks, so the claim
that every started host still receives a terminal progress event after
cancellation is false. -/
theorem C4_cancel_counterexample :
    (demoServers.map fun h => h.serverId) = [1, 2] ∧
    ((scriptRun demoServers (some 1)).events.filter (isProgressFor 2)) = [] ∧
    ((scriptRun demoServers (some 1)).events.filter (isDoneFor 2)) = [] :=
  ⟨rfl, rfl, rfl⟩

/-- Claim C4 (amended): `script:cancel` on a running batch owned by the
caller clears the running flag and removes the record from the registry,
signals the abort controller, and emits one cancelled event; the dispatch
loop then starts no further hosts — a cancelled run's event stream
consists of the start event, the events of exactly the hosts processed
before cancellation, and the aggregate completion event counting only
those hosts; hosts not yet started are not transitioned to `failed` and
receive no progress events. -/
theorem C4_cancel_amended (uid : Nat) (e : ExecEntry) (evs : List SEvent) (ab : Bool)
    (h : e.userId = uid) (servers : List HostSpec) (k : Nat) :
    scriptCancel uid ⟨some e, evs, ab⟩
      = ⟨none, evs ++ [SEvent.cancelledEvent], true⟩ ∧
    (scriptRun servers (some k)).events
      = SEvent.started servers.length ::
          (allHostEvents (servers.take k) ++
            [SEvent.completed servers.length (successTotal (servers.take k))
              (failTotal (servers.take k))]) := by
  constructor
  · simp [scriptCancel, h]
  · simp [scriptRun, runLoop_some, runLoop_none]

/-- Witness for C4 (amended) at a concrete owner and the concrete two-host
batch cancelled after one host. -/
theorem C4_cancel_amended_witness :
    scriptCancel 1 ⟨some ⟨1, true⟩, [], false⟩
      = ⟨none, [SEvent.cancelledEvent], true⟩ ∧
    (scriptRun demoServers (some 1)).events
      = [SEvent.started 2, SEvent.running 1,
         SEvent.done 1 RunStatus.success (some 0) none, SEvent.completed 2 1 0] := by
  have h := C4_cancel_amended 1 ⟨1, true⟩ [] false rfl demoServers 1
  exact ⟨h.1, h.2.trans (by rfl)⟩

/-- Claim C5: `script:cancel` is idempotent — a second cancel finds the
registry entry already deleted and is a strict no-op (same registry state,
same event history, no duplicate terminal events), and a cancel arriving
after the batch completed naturally (its record already deleted by the
run's cleanup) changes nothing either, leaving the completion counts as
emitted. -/
theorem C5_cancel_idempotent (uid : Nat) (st : CancelState) (servers : List HostSpec) :
    scriptCancel uid (scriptCancel uid st) = scriptCancel uid st ∧
    scriptCancel uid (afterRun servers) = afterRun servers := by
  constructor
  · rcases st with ⟨entry, evs, ab⟩
    cases entry with
    | none => rfl
    | some e =>
      by_cases h : e.userId == uid
      · simp [scriptCancel, h]
      · simp [scriptCancel, h]
  · rfl

/-- Counterexample to claim C6 as stated: after `terminal:disconnect`
closes a session, a `terminal:resize` on that id emits no event at all —
in particular no error — so the claim that resize on a closed id returns
an `UnknownSession` error (and that no such call is silently dropped) is
false; the call is silently ignored. -/
theorem C6_resize_counterexample :
    lookupA (terminalDisconnect demoTermReg "s1").1 "s1" = none ∧
    terminalResize (terminalDisconnect demoTermReg "s1").1 "s1" 80 24
      = ((terminalDisconnect demoTermReg "s1").1, []) :=
  ⟨rfl, rfl⟩

/-- Claim C6 (amended): after `close(sessionId)` the id is gone from the
registry, and a subsequent write (`terminal:input`) or submitCommand
(`terminal:command`) on it emits the "Invalid terminal session" error and
produces no remote side effect; a subsequent `terminal:resize` also
produces no remote side effect but emits no error — it is silently
ignored, as it likewise is on a session that is present but inactive
(where input still reports the error). -/
theorem C6_closed_session_calls (reg : TermReg) (ptyReg : PTYReg)
    (sid data command : String) (cols rows now : Nat) :
    lookupA (terminalDisconnect reg sid).1 sid = none ∧
    terminalInput (terminalDisconnect reg sid).1 ptyReg sid data now
      = ((terminalDisconnect reg sid).1, [TermEffect.errorEvent "Invalid terminal session"]) ∧
    terminalCommand (terminalDisconnect reg sid).1 sid command now
      = ((terminalDisconnect reg sid).1, [TermEffect.errorEvent "Invalid terminal session"]) ∧
    terminalResize (terminalDisconnect reg sid).1 sid cols rows
      = ((terminalDisconnect reg sid).1, []) ∧
    (∀ s, lookupA reg sid = some s → s.isActive = false →
      terminalInput reg ptyReg sid data now
        = (reg, [TermEffect.errorEvent "Invalid terminal session"]) ∧
      terminalResize reg sid cols rows = (reg, [])) := by
  have hnone := lookupA_terminalDisconnect reg sid
  refine ⟨hnone, ?_, ?_, ?_, ?_⟩
  · unfold terminalInput
    rw [hnone]
  · unfold terminalCommand
    rw [hnone]
  · unfold terminalResize
    rw [hnone]
  · intro s hs hact
    constructor
    · unfold terminalInput
      rw [hs]
      simp [hact]
    · unfold terminalResize
      rw [hs]
      simp [hact]

/-- Witness for C6 (amended) at concrete registries: a closed id and an
inactive session. -/
theorem C6_closed_session_calls_witness :
    lookupA (terminalDisconnect demoTermReg "s1").1 "s1" = none ∧
    terminalInput demoInactiveTermReg [] "s2" "ls" 9
      = (demoInactiveTermReg, [TermEffect.errorEvent "Invalid terminal session"]) ∧
    terminalResize demoInactiveTermReg "s2" 80 24 = (demoInactiveTermReg, []) := by
  have h := C6_closed_session_calls demoTermReg [] "s1" "ls" "pwd" 80 24 9
  have h2 := C6_closed_session_calls demoInactiveTermReg [] "s2" "ls" "pwd" 80 24 9
  have h3 := h2.2.2.2.2 ⟨1, 1, SessionType.pty, "s2", false, 0⟩ rfl rfl
  exact ⟨h.1, h3.1, h3.2⟩

/-- Claim C7: `createPTYShellSession` never attempts a network connection
before the caller's authorization for the host has been verified — on a
missing or foreign server row it returns the access-denied error with zero
`client.connect` calls, and every execution trace is either just the
ownership check or the ownership check followed by the connect call, so
the authorization check always precedes the connect. -/
theorem C7_auth_before_connect (srv : Option ServerRec) (userId : Nat)
    (conn : ConnectOutcome) :
    (authFail srv userId = true →
      (createPTYShellSession srv userId conn).1.success = false ∧
      (createPTYShellSession srv userId conn).1.error
        = some "Server not found or access denied" ∧
      (createPTYShellSession srv userId conn).2.countP isConnectCall = 0) ∧
    ((createPTYShellSession srv userId conn).2 = [PTYAction.authCheck] ∨
      (createPTYShellSession srv userId conn).2
        = [PTYAction.authCheck, PTYAction.connectCall]) := by
  cases srv with
  | none => exact ⟨fun _ => ⟨rfl, rfl, rfl⟩, Or.inl rfl⟩
  | some server =>
    by_cases h : server.userId == userId
    · constructor
      · intro hf
        simp [authFail, h] at hf
      · cases conn with
        | ready o =>
            cases o <;> simp [createPTYShellSession, h]
        | connError m => simp [createPTYShellSession, h]
        | timeoutFired => simp [createPTYShellSession, h]
    · constructor
      · intro _
        simp [createPTYShellSession, h, isConnectCall]
      · simp [createPTYShellSession, h]

/-- Witness for C7 at a server row owned by user 2 and a caller with id 1:
access denied, zero connect calls. -/
theorem C7_auth_before_connect_witness :
    authFail (some ⟨5, 2, "h", 22⟩) 1 = true ∧
    (createPTYShellSession (some ⟨5, 2, "h", 22⟩) 1 ConnectOutcome.timeoutFired).1.error
      = some "Server not found or access denied" ∧
    (createPTYShellSession (some ⟨5, 2, "h", 22⟩) 1
        ConnectOutcome.timeoutFired).2.countP isConnectCall = 0 := by
  have h := C7_auth_before_connect (some ⟨5, 2, "h", 22⟩) 1 ConnectOutcome.timeoutFired
  exact ⟨rfl, (h.1 rfl).2.1, (h.1 rfl).2.2⟩

/-- Claim C8: `closePTYShellSession` never raises to its caller; on an
unknown or already-closed id it is a strict no-op leaving the registry
unchanged; on a live session it removes the registry entry (dropping the
session's connection reference); and closing twice is the same as closing
once — the second close finds nothing and changes nothing. -/
theorem C8_close_idempotent (reg : PTYReg) (sid : String) (oc oc2 : PTYCloseOutcome) :
    (closePTYShellSession reg sid oc).errorRaised = false ∧
    (lookupA reg sid = none → closePTYShellSession reg sid oc = ⟨reg, false, false, false⟩) ∧
    (∀ s, lookupA reg sid = some s →
      (closePTYShellSession reg sid oc).registry = eraseA reg sid) ∧
    closePTYShellSession (closePTYShellSession reg sid oc).registry sid oc2
      = ⟨(closePTYShellSession reg sid oc).registry, false, false, false⟩ := by
  refine ⟨?_, fun h => closePTY_not_found reg sid oc h,
    fun s h => closePTY_found reg sid oc s h,
    closePTY_not_found _ _ _ (closePTY_registry_lookup reg sid oc)⟩
  unfold closePTYShellSession
  cases h : lookupA reg sid with
  | none => rfl
  | some s => cases oc <;> rfl

/-- Witness for C8 at the concrete one-session registry and at an empty
registry. -/
theorem C8_close_idempotent_witness :
    lookupA demoPTYReg "s1" = some ⟨1, 1, 5, 7, "~", 120, 30⟩ ∧
    (closePTYShellSession demoPTYReg "s1" PTYCloseOutcome.ok).registry
      = eraseA demoPTYReg "s1" ∧
    lookupA ([] : PTYReg) "zz" = none ∧
    closePTYShellSession ([] : PTYReg) "zz" PTYCloseOutcome.ok
      = ⟨[], false, false, false⟩ := by
  have h := C8_close_idempotent demoPTYReg "s1" PTYCloseOutcome.ok PTYCloseOutcome.ok
  have h2 := C8_close_idempotent ([] : PTYReg) "zz" PTYCloseOutcome.ok PTYCloseOutcome.ok
  exact ⟨rfl, h.2.2.1 _ rfl, rfl, h2.2.1 rfl⟩

/-- Claim C9: after `closePTYShellSession` returns, the session id is no
longer in the PTY registry and `hasPTYSession` is false — including when
`stream.end()` or `client.end()` throws, since the exception is caught and
the deletion still runs. -/
theorem C9_close_removes_session (reg : PTYReg) (sid : String) (oc : PTYCloseOutcome) :
    hasPTYSession (closePTYShellSession reg sid oc).registry sid = false := by
  unfold hasPTYSession
  rw [closePTY_registry_lookup]
  rfl

/-- Counterexample to claim C10 as stated: on an existing session whose
`stream.setWindow` call throws, `resizePTYSession` hits its `catch` branch
and returns `false` with the stored `cols`/`rows` unchanged — so the claim
that resize on an existing session always updates the fields and returns
`true` is false. -/
theorem C10_resize_counterexample :
    hasPTYSession demoPTYReg "s1" = true ∧
    resizePTYSession demoPTYReg "s1" 80 24 true = (demoPTYReg, false) ∧
    getPTYSessionInfo demoPTYReg "s1" = some ("~", 120, 30) :=
  ⟨rfl, rfl, rfl⟩

/-- Claim C10 (amended): on an existing session, when the underlying
`setWindow` call does not throw, `resizePTYSession` returns `true` and
updates only the stored `cols` and `rows` (client, stream, serverId,
userId and cwd are unchanged), so `getPTYSessionInfo` reports exactly the
new size; when `setWindow` throws it returns `false` and leaves the
registry unchanged; and on an unknown id it returns `false` and leaves the
registry unchanged. -/
theorem C10_resize_frame (reg : PTYReg) (sid : String) (cols rows : Nat)
    (s : PTYSession) (h : lookupA reg sid = some s) :
    resizePTYSession reg sid cols rows false
      = (updateA reg sid { s with cols := cols, rows := rows }, true) ∧
    lookupA (resizePTYSession reg sid cols rows false).1 sid
      = some { s with cols := cols, rows := rows } ∧
    getPTYSessionInfo (resizePTYSession reg sid cols rows false).1 sid
      = some (s.cwd, cols, rows) ∧
    resizePTYSession reg sid cols rows true = (reg, false) ∧
    (∀ (reg2 : PTYReg) (sid2 : String) (c2 r2 : Nat) (b2 : Bool),
      lookupA reg2 sid2 = none → resizePTYSession reg2 sid2 c2 r2 b2 = (reg2, false)) := by
  have hres : resizePTYSession reg sid cols rows false
      = (updateA reg sid { s with cols := cols, rows := rows }, true) := by
    unfold resizePTYSession
    rw [h]
    rfl
  have hup : lookupA (updateA reg sid { s with cols := cols, rows := rows }) sid
      = some { s with cols := cols, rows := rows } := by
    rw [lookupA_updateA_self]
    simp [h]
  refine ⟨hres, ?_, ?_, ?_, ?_⟩
  · rw [hres]
    exact hup
  · rw [hres]
    unfold getPTYSessionInfo
    rw [hup]
  · unfold resizePTYSession
    rw [h]
    rfl
  · intro reg2 sid2 c2 r2 b2 hn
    unfold resizePTYSession
    rw [hn]

/-- Witness for C10 (amended) at the concrete one-session registry. -/
theorem C10_resize_frame_witness :
    lookupA demoPTYReg "s1" = some ⟨1, 1, 5, 7, "~", 120, 30⟩ ∧
    (resizePTYSession demoPTYReg "s1" 80 24 false).2 = true ∧
    getPTYSessionInfo (resizePTYSession demoPTYReg "s1" 80 24 false).1 "s1"
      = some ("~", 80, 24) := by
  have h := C10_resize_frame demoPTYReg "s1" 80 24 ⟨1, 1, 5, 7, "~", 120, 30⟩ rfl
  exact ⟨rfl, by rw [h.1], h.2.2.1⟩

end Panel
